import Mathlib

/-!
Verification of readucks (src/readucks/readucks.py) against its
natural-language specification.  The definitions below are a shallow
embedding of the orchestration code in readucks.py: command-line argument
validation (get_arguments), catalog selection (main / process_files),
input-file discovery (get_input_files) and per-read output and counting
(process_read_file).  Results coming back from the demultiplexer
(demux_read, defined in a module outside the embedded source) are treated
as opaque records whose fields flow into the output row.
Thresholds are modelled as exact rationals; the Python float literals and
comparisons involved (0.0, 1.0, 70.0, 90.0, division by 100.0) are exact
in binary floating point at the granularity these claims need.
-/

namespace Readucks

/-- A barcode definition: numeric id plus nucleotide sequence.  The claims
below only inspect ids and list membership, never sequence content. -/
structure BarcodeDef where
  id : Nat
  seq : String
deriving DecidableEq, Repr

/-- Modelled from the spec: barcodes.py is not part of the embedded source;
the spec fixes the native catalog as an ordered table of 24 barcodes.  Ids
run 1..24 in catalog order; sequences are irrelevant to the claims and left
empty. -/
def NATIVE_BARCODES : List BarcodeDef :=
  (List.range 24).map (fun i => { id := i + 1, seq := "" })

/-- Modelled from the spec: the 96 PCR barcodes, ids 1..96 in order. -/
def PCR_BARCODES : List BarcodeDef :=
  (List.range 96).map (fun i => { id := i + 1, seq := "" })

/-- Modelled from the spec: the 12 rapid barcodes, ids 1..12 in order. -/
def RAPID_BARCODES : List BarcodeDef :=
  (List.range 12).map (fun i => { id := i + 1, seq := "" })

/-- The parsed command-line arguments (get_arguments, lines 180-211).
Thresholds default to 90.0 and 70.0 percent. -/
structure Args where
  input_path : String
  output : String
  verbosity : Int := 1
  single : Bool := false
  native_barcodes : Bool := false
  pcr_barcodes : Bool := false
  rapid_barcodes : Bool := false
  limit_barcodes_to : Option (List Nat) := none
  threshold : Rat := 90
  secondary_threshold : Rat := 70
deriving DecidableEq, Repr

/-- Embeds readucks.py line 215: the check rejecting combinations of the three
barcode-set flags. -/
def barcode_flags_check (n p r : Bool) : Bool :=
  (n && p) || (n && r) || (p && r)

/-- Embeds readucks.py lines 219-221: `if (args.single and args.secondary_threshold)`.
Python truthiness of a float is `x != 0.0`. -/
def single_secondary_check (single : Bool) (secondary_threshold : Rat) : Bool :=
  single && decide (secondary_threshold ≠ 0)

/-- Embeds readucks.py lines 223-226: the percentage-vs-fraction check.  Python
`and` binds tighter than `or`. -/
def fraction_check (t s : Rat) : Bool :=
  (decide (t > 0) && decide (t < 1)) || (decide (s > 0) && decide (s < 1))

/-- Embeds readucks.py lines 213-228: the validation run after parsing; the first
failing check terminates the process with its error message. -/
def validate_args (args : Args) : Except String Args :=
  if barcode_flags_check args.native_barcodes args.pcr_barcodes args.rapid_barcodes then
    .error "Error: only one of the following options may be used: --native_barcodes, --pcr_barcodes or --rapid_barcodes"
  else if single_secondary_check args.single args.secondary_threshold then
    .error "Error: the option --secondary_threshold is not available with --single"
  else if fraction_check args.threshold args.secondary_threshold then
    .error "Error: the options --threshold and --secondary_threshold should be given as percentages"
  else
    .ok args

/-- Embeds readucks.py lines 39-45: the barcode-set name chosen in main. -/
def select_barcode_set (n p r : Bool) : String :=
  let s := "native"
  let s := if n then "native" else s
  let s := if p then "pcr" else s
  if r then "rapid" else s

/-- Embeds readucks.py lines 77-85: mapping the set name to a catalog inside
process_files; an unrecognised name terminates the process. -/
def catalog_for (barcode_set : String) : Except String (List BarcodeDef) :=
  if barcode_set = "native" then .ok NATIVE_BARCODES
  else if barcode_set = "pcr" then .ok PCR_BARCODES
  else if barcode_set = "rapid" then .ok RAPID_BARCODES
  else .error ("Unrecognised barcode_set: " ++ barcode_set)

set_option linter.unusedVariables false in
/-- Embeds readucks.py lines 77-95: the catalog handed to process_read_file (and
hence to demux_read).  The limit_barcodes_to argument is accepted but never
consulted: line 87 is the comment `todo - limit set of barcodes` and the
loop at line 95 passes the unrestricted catalog. -/
def active_catalog (barcode_set : String) (limit_barcodes_to : Option (List Nat)) :
    Except String (List BarcodeDef) :=
  catalog_for barcode_set

/-- Modelled from the spec: `restrict(catalog, ids)` (spec 4.1) returns the
sub-list whose ids are in the supplied set, preserving original order; if
ids is empty or absent the catalog is returned unchanged.  No such function
exists in readucks.py. -/
def restrict (catalog : List BarcodeDef) (ids : Option (List Nat)) : List BarcodeDef :=
  match ids with
  | none => catalog
  | some l => if l = [] then catalog else catalog.filter (fun b => decide (b.id ∈ l))

/-- Embeds readucks.py line 48: main passes args.threshold / 100.0 and
args.secondary_threshold / 100.0 (plus the other arguments) to
process_files.  This record captures that call. -/
structure ProcessCall where
  input_path : String
  output : String
  barcode_set : String
  limit_barcodes_to : Option (List Nat)
  single : Bool
  threshold : Rat
  secondary_threshold : Rat
  verbosity : Int
deriving Repr

/-- Embeds readucks.py lines 39-48: the body of main after argument parsing. -/
def main_call (args : Args) : ProcessCall :=
  { input_path := args.input_path
    output := args.output
    barcode_set := select_barcode_set args.native_barcodes args.pcr_barcodes args.rapid_barcodes
    limit_barcodes_to := args.limit_barcodes_to
    single := args.single
    threshold := args.threshold / 100
    secondary_threshold := args.secondary_threshold / 100
    verbosity := args.verbosity }

/-- The per-end fields of a result produced by demux_read (demuxer module,
outside the embedded source): id, start, score, identity, matches, length.
The orchestration code only forwards these values into the output row, so
they are kept as opaque strings here. -/
structure EndResult where
  id : String
  start : String
  score : String
  identity : String
  «matches» : String
  length : String
deriving DecidableEq, Repr

/-- A demux_read result as consumed by process_read_file: read name, final
call, primary and secondary end results. -/
structure DemuxResult where
  name : String
  call : String
  primary : EndResult
  secondary : EndResult
deriving DecidableEq, Repr

/-- Embeds readucks.py lines 164-167: the tab-separated row printed for one read.
Note that column 9 (secondary_is_start) prints result.primary.start, not
result.secondary.start, exactly as the source does. -/
def emit_row (r : DemuxResult) : List String :=
  [r.name, r.call,
   r.primary.id, r.primary.start, r.primary.score, r.primary.identity,
   r.primary.«matches», r.primary.length,
   r.secondary.id, r.primary.start, r.secondary.score, r.secondary.identity,
   r.secondary.«matches», r.secondary.length]

/-- Embeds readucks.py lines 89-92: the header row printed once to the output
file before any read is processed. -/
def header_row : List String :=
  ["name", "barcode",
   "primary_barcode", "primary_is_start", "primary_score", "primary_identity",
   "primary_matches", "primary_length",
   "secondary_barcode", "secondary_is_start", "secondary_score", "secondary_identity",
   "secondary_matches", "secondary_length"]

/-- Embeds readucks.py lines 89-99 with 164-167: the full sequence of rows written
to the output file over a run, given the demux results of each input file
in processing order: the header, then one row per read, file by file. -/
def run_output (files : List (List DemuxResult)) : List (List String) :=
  header_row :: (files.map (fun reads => reads.map emit_row)).flatten

/-- Embeds readucks.py line 162: `barcode_counts[result[call]] += 1` on a
defaultdict(int), modelled as a total function with default 0. -/
def record_read (counts : String → Nat) (call : String) : String → Nat :=
  fun k => if k = call then counts k + 1 else counts k

/-- Embeds readucks.py lines 158-162: the effect on barcode_counts of processing a
list of reads (one count update per read, in order). -/
def process_reads (counts : String → Nat) (reads : List DemuxResult) : String → Nat :=
  reads.foldl (fun c r => record_read c r.call) counts

/-- Embeds readucks.py line 158: the record-format string passed to SeqIO.parse
for every input file; it is the literal "fastq" whatever the file name. -/
def seqio_format (read_file : String) : String :=
  let _ := read_file
  "fastq"

/-- Python str.lower, character by character over the underlying list. -/
def lower_str (s : String) : String := String.mk (s.data.map Char.toLower)

/-- Python str.endswith, as a suffix test on the underlying lists. -/
def ends_with (s t : String) : Bool := t.data.isSuffixOf s.data

/-- Embeds readucks.py lines 139-140: the case-insensitive extension test applied
to file names found while walking an input directory. -/
def has_read_ext (f : String) : Bool :=
  ends_with (lower_str f) ".fastq" || ends_with (lower_str f) ".fastq.gz" ||
  ends_with (lower_str f) ".fasta" || ends_with (lower_str f) ".fasta.gz"

/-- The slice of the file system visible to get_input_files: whether the
input path is an existing file, whether it is a directory, and the
(dir_path, filename) pairs produced by os.walk of the directory. -/
structure FileSystem where
  isfile : String → Bool
  isdir : String → Bool
  walk : String → List (String × String)

/-- Models os.path.join for the paths built in get_input_files. -/
def path_join (d f : String) : String := d ++ "/" ++ f

/-- Embeds readucks.py lines 121-147: get_input_files.  A plain file is returned
as a singleton; a directory is searched recursively and the matching file
paths are sorted; otherwise, or when the search comes up empty, the process
terminates with an error. -/
def get_input_files (fs : FileSystem) (input_path : String) : Except String (List String) :=
  if fs.isfile input_path then
    .ok [input_path]
  else if fs.isdir input_path then
    let input_files :=
      (((fs.walk input_path).filter (fun df => has_read_ext df.2)).map
        (fun df => path_join df.1 df.2)).mergeSort (fun a b => decide (a ≤ b))
    if input_files.isEmpty then
      .error ("Error: could not find FASTQ/FASTA files in " ++ input_path)
    else
      .ok input_files
  else
    .error ("Error: could not find " ++ input_path)

/-- A concrete file system used to exercise get_input_files: one plain
file, one directory holding two matching files and one non-matching file. -/
def demoFS : FileSystem where
  isfile := fun s => s == "reads.fastq"
  isdir := fun s => s == "data"
  walk := fun s =>
    if s == "data" then [("data", "b.fastq"), ("data", "notes.txt"), ("data", "A.FASTA.GZ")]
    else []

/-- A concrete end result used to exercise the counting invariant. -/
def demoEnd : EndResult :=
  { id := "none", start := "True", score := "0", identity := "0.0",
    «matches» := "0", length := "0" }

/-- Two concrete demux results used to exercise the counting invariant. -/
def demoReads : List DemuxResult :=
  [{ name := "read1", call := "none", primary := demoEnd, secondary := demoEnd },
   { name := "read2", call := "BC05", primary := demoEnd, secondary := demoEnd }]

end Readucks

namespace Readucks

/-- Claim C1, evaluated at the failing input: with the native set selected
and limit_barcodes_to 1 2 3 supplied, process_files still hands demux_read
the full 24-barcode native catalog (line 87 of readucks.py is only a todo
comment and the argument is never consulted), whereas the restriction the
claim describes would keep only barcodes 1, 2, 3 and in particular drop
barcode 5, which a perfectly matching read would otherwise be called as. -/
theorem limit_barcodes_to_is_ignored :
    active_catalog "native" (some [1, 2, 3]) = Except.ok NATIVE_BARCODES ∧
    (∃ b ∈ NATIVE_BARCODES, b.id = 5) ∧
    restrict NATIVE_BARCODES (some [1, 2, 3]) =
      [{ id := 1, seq := "" }, { id := 2, seq := "" }, { id := 3, seq := "" }] ∧
    (∀ b ∈ restrict NATIVE_BARCODES (some [1, 2, 3]), b.id ≠ 5) ∧
    NATIVE_BARCODES ≠ restrict NATIVE_BARCODES (some [1, 2, 3]) := by
  exact ⟨rfl, by decide, by decide, by decide, by decide⟩

/-- Claim C2, evaluated at the failing input: an invocation with --single
and secondary_threshold left at its default of 70.0 is rejected, because
line 219 of readucks.py tests Python truthiness of the float value rather
than whether the option was explicitly supplied, and 70.0 is truthy; while
an explicit --secondary_threshold 0 together with --single is accepted. -/
theorem single_with_default_secondary_rejected :
    validate_args { input_path := "in.fastq", output := "out.tsv", single := true } =
      Except.error "Error: the option --secondary_threshold is not available with --single" ∧
    Args.secondary_threshold { input_path := "in.fastq", output := "out.tsv", single := true } = 70 ∧
    single_secondary_check true 70 = true ∧
    validate_args
        { input_path := "in.fastq", output := "out.tsv", single := true,
          secondary_threshold := 0 } =
      Except.ok
        { input_path := "in.fastq", output := "out.tsv", single := true,
          secondary_threshold := 0 } := by
  exact ⟨rfl, rfl, by decide, rfl⟩

/-- Claim C3: in every emitted per-read row, column 9 (the
secondary_is_start column) holds the start value of the primary result,
while columns 8 and 10 through 13 hold the own id, score, identity,
matches and length fields of the secondary result. -/
theorem secondary_is_start_prints_primary_start (r : DemuxResult) :
    (emit_row r)[9]? = some r.primary.start ∧
    (emit_row r)[8]? = some r.secondary.id ∧
    (emit_row r)[10]? = some r.secondary.score ∧
    (emit_row r)[11]? = some r.secondary.identity ∧
    (emit_row r)[12]? = some r.secondary.«matches» ∧
    (emit_row r)[13]? = some r.secondary.length := by
  exact ⟨rfl, rfl, rfl, rfl, rfl, rfl⟩

/-- Claim C4: main passes process_files the user-supplied percentage
thresholds divided by 100, so the defaults 90.0 and 70.0 arrive at the
classifier as 0.9 and 0.7. -/
theorem thresholds_divided_by_100 (args : Args) :
    (main_call args).threshold = args.threshold / 100 ∧
    (main_call args).secondary_threshold = args.secondary_threshold / 100 ∧
    (args.threshold = 90 → (main_call args).threshold = 9 / 10) ∧
    (args.secondary_threshold = 70 → (main_call args).secondary_threshold = 7 / 10) := by
  refine ⟨rfl, rfl, fun h => ?_, fun h => ?_⟩ <;>
    simp [main_call, h] <;> norm_num

/-- Witness for C4 at the default arguments. -/
theorem thresholds_divided_by_100_witness :
    Args.threshold { input_path := "in.fastq", output := "out.tsv" } = 90 ∧
    Args.secondary_threshold { input_path := "in.fastq", output := "out.tsv" } = 70 ∧
    (main_call { input_path := "in.fastq", output := "out.tsv" }).threshold = 9 / 10 ∧
    (main_call { input_path := "in.fastq", output := "out.tsv" }).secondary_threshold = 7 / 10 :=
  ⟨rfl, rfl,
    (thresholds_divided_by_100 { input_path := "in.fastq", output := "out.tsv" }).2.2.1 rfl,
    (thresholds_divided_by_100 { input_path := "in.fastq", output := "out.tsv" }).2.2.2 rfl⟩

/-- Claim C5: the percentage-vs-fraction check fires exactly when one of
the two thresholds lies strictly between 0 and 1, so values at or beyond
the endpoints (0, 1, anything at least 1 or at most 0) pass it. -/
theorem fraction_threshold_rejected_iff (t s : Rat) :
    (fraction_check t s = true ↔ ((0 < t ∧ t < 1) ∨ (0 < s ∧ s < 1))) ∧
    ((t ≤ 0 ∨ 1 ≤ t) → (s ≤ 0 ∨ 1 ≤ s) → fraction_check t s = false) := by
  have hiff : fraction_check t s = true ↔ ((0 < t ∧ t < 1) ∨ (0 < s ∧ s < 1)) := by
    simp [fraction_check]
  refine ⟨hiff, fun ht hs => ?_⟩
  rw [Bool.eq_false_iff]
  intro hcontra
  rcases hiff.mp hcontra with ⟨h1, h2⟩ | ⟨h1, h2⟩
  · rcases ht with h | h
    · exact absurd h1 (not_lt.mpr h)
    · exact absurd h2 (not_lt.mpr h)
  · rcases hs with h | h
    · exact absurd h1 (not_lt.mpr h)
    · exact absurd h2 (not_lt.mpr h)

/-- Witness for C5 at the whole-percentage values 100 and 0. -/
theorem fraction_threshold_rejected_iff_witness :
    ((100 : Rat) ≤ 0 ∨ 1 ≤ (100 : Rat)) ∧ ((0 : Rat) ≤ 0 ∨ 1 ≤ (0 : Rat)) ∧
      fraction_check 100 0 = false :=
  ⟨Or.inr (by norm_num), Or.inl le_rfl,
    (fraction_threshold_rejected_iff 100 0).2 (Or.inr (by norm_num)) (Or.inl le_rfl)⟩

/-- Claim C6: the barcode-set flag check fires exactly when at least two of
the three flags are given, and with none given main selects the native set
name, which process_files maps to the native catalog. -/
theorem barcode_set_flags_mutually_exclusive :
    (∀ n p r : Bool,
      barcode_flags_check n p r = true ↔
        2 ≤ (cond n 1 0) + (cond p 1 0) + (cond r 1 0)) ∧
    select_barcode_set false false false = "native" ∧
    catalog_for "native" = Except.ok NATIVE_BARCODES :=
  ⟨by decide, rfl, rfl⟩

/-- Claim C9: the output starts with the single 14-field header row in the
specified field order and is followed by exactly one row per read, file by
file, in processing order. -/
theorem output_header_and_rows :
    header_row.length = 14 ∧
    header_row = ["name", "barcode",
      "primary_barcode", "primary_is_start", "primary_score", "primary_identity",
      "primary_matches", "primary_length",
      "secondary_barcode", "secondary_is_start", "secondary_score", "secondary_identity",
      "secondary_matches", "secondary_length"] ∧
    ∀ files : List (List DemuxResult),
      (run_output files).head? = some header_row ∧
      (run_output files).tail = (files.flatten).map emit_row ∧
      (run_output files).length = 1 + (files.flatten).length := by
  refine ⟨rfl, rfl, fun files => ⟨rfl, ?_, ?_⟩⟩
  · simp [run_output]
  · simp [run_output, Function.comp_def]
    rw [Nat.add_comm]

/-- Claim C7: get_input_files returns the singleton list for an existing
file; for a directory it returns a sorted permutation of exactly the
recursively found file paths whose names pass the case-insensitive
fastq/fasta extension test, and errors when none match; for a path that is
neither an existing file nor a directory it errors. -/
theorem get_input_files_spec (fs : FileSystem) (p : String) :
    (fs.isfile p = true → get_input_files fs p = .ok [p]) ∧
    (fs.isfile p = false → fs.isdir p = true →
      ∀ matching : List String,
        matching = ((fs.walk p).filter (fun df => has_read_ext df.2)).map
          (fun df => path_join df.1 df.2) →
        (matching = [] → get_input_files fs p =
          .error ("Error: could not find FASTQ/FASTA files in " ++ p)) ∧
        (matching ≠ [] → ∃ l, get_input_files fs p = .ok l ∧
          l.Sorted (· ≤ ·) ∧ l.Perm matching)) ∧
    (fs.isfile p = false → fs.isdir p = false →
      get_input_files fs p = .error ("Error: could not find " ++ p)) := by
  refine ⟨fun hf => by simp [get_input_files, hf],
    fun hf hd matching hm => ⟨fun hempty => ?_, fun hne => ?_⟩,
    fun hf hd => by simp [get_input_files, hf, hd]⟩
  · simp [get_input_files, hf, hd, ← hm, hempty]
  · refine ⟨matching.mergeSort (fun a b => decide (a ≤ b)), ?_,
      List.sorted_mergeSort' (l := matching), List.mergeSort_perm matching _⟩
    have hlen : (matching.mergeSort (fun a b => decide (a ≤ b))).length = matching.length :=
      (List.mergeSort_perm matching _).length_eq
    have hne' : (matching.mergeSort (fun a b => decide (a ≤ b))).isEmpty = false := by
      rcases hx : matching.mergeSort (fun a b => decide (a ≤ b)) with _ | ⟨a, l⟩
      · exfalso
        apply hne
        have := hlen
        rw [hx] at this
        exact List.eq_nil_of_length_eq_zero this.symm
      · rfl
    simp only [get_input_files, hf, hd, ← hm, hne']
    simp

/-- Witness for C7: the file branch at a concrete file system. -/
theorem get_input_files_spec_witness :
    demoFS.isfile "reads.fastq" = true ∧
    get_input_files demoFS "reads.fastq" = .ok ["reads.fastq"] :=
  ⟨rfl, (get_input_files_spec demoFS "reads.fastq").1 rfl⟩

/-- Claim C8: each processed read increments exactly the aggregate entry
keyed by its own final call, by exactly one; consequently, over any list of
reads whose calls lie in a key set K, the total of the counts over K grows
by exactly the number of reads processed. -/
theorem barcode_counts_one_increment_per_read :
    (∀ (counts : String → Nat) (call k : String),
      record_read counts call k = counts k + (if k = call then 1 else 0)) ∧
    (∀ (K : Finset String) (counts : String → Nat) (reads : List DemuxResult),
      (∀ r ∈ reads, r.call ∈ K) →
      (∑ k ∈ K, process_reads counts reads k) = (∑ k ∈ K, counts k) + reads.length) := by
  have hpt : ∀ (counts : String → Nat) (call k : String),
      record_read counts call k = counts k + (if k = call then 1 else 0) := by
    intro counts call k
    by_cases h : k = call <;> simp [record_read, h]
  refine ⟨hpt, fun K counts reads => ?_⟩
  induction reads generalizing counts with
  | nil => intro _; simp [process_reads]
  | cons r rs ih =>
    intro hmem
    have hr : r.call ∈ K := hmem r (List.mem_cons_self r rs)
    have hstep : process_reads counts (r :: rs) =
        process_reads (record_read counts r.call) rs := rfl
    rw [hstep, ih _ (fun x hx => hmem x (List.mem_cons_of_mem r hx))]
    have hsum : (∑ k ∈ K, record_read counts r.call k) = (∑ k ∈ K, counts k) + 1 := by
      rw [Finset.sum_congr rfl (fun k _ => hpt counts r.call k), Finset.sum_add_distrib,
        Finset.sum_ite_eq' K r.call (fun _ => 1), if_pos hr]
    rw [hsum]
    simp only [List.length_cons]
    omega

/-- Witness for C8: two concrete reads, one called none and one called
BC05, grow the total count over the key set by exactly two. -/
theorem barcode_counts_one_increment_per_read_witness :
    (∀ r ∈ demoReads, r.call ∈ ({"none", "BC05"} : Finset String)) ∧
    (∑ k ∈ ({"none", "BC05"} : Finset String),
        process_reads (fun _ => 0) demoReads k) =
      (∑ k ∈ ({"none", "BC05"} : Finset String), (fun _ => 0 : String → Nat) k) +
        demoReads.length := by
  have hm : ∀ r ∈ demoReads, r.call ∈ ({"none", "BC05"} : Finset String) := by decide
  exact ⟨hm, barcode_counts_one_increment_per_read.2 _ _ demoReads hm⟩

/-- Claim C10: the record-format string handed to SeqIO.parse is the
constant "fastq" for every input file, including the .fasta and .fasta.gz
files that input discovery accepts. -/
theorem seqio_format_always_fastq (f : String) :
    seqio_format f = "fastq" ∧
    has_read_ext "sample.fasta" = true ∧
    has_read_ext "SAMPLE.FASTA.GZ" = true ∧
    seqio_format "sample.fasta" = "fastq" :=
  ⟨rfl, by decide, by decide, rfl⟩

end Readucks
